import Mathlib

/-!
Shallow embedding of the INFRASTRUKT/INFRAstudio core sources
(`src/types/chain.ts`, `src/core/validator.ts`, `src/core/chain.ts`,
the `Sequencer` in `src/core/validator.ts`), together with models of the
batching / bridge / two-phase-commit components that exist only in the
repository's technical documentation and specification.

Conventions of the embedding:
- JavaScript numbers are modelled as rationals (`ℚ`);
- runtime values flowing into the zod validators are modelled at the
  runtime level: enum-like fields are plain strings, so that the zod
  enum checks are real checks rather than typing artefacts;
- `Date.now()` is passed in explicitly as a `now : ℚ` parameter;
- a TypeScript method that can `throw` is modelled as returning
  `Option String × σ` (the error message thrown, if any, together with
  the state of the object after the call — in TS the object survives a
  throwing method call).
-/

namespace Infrastrukt

/-- Runtime shape of `ChainConfig.features` (`src/types/chain.ts`). -/
structure Features where
  privacy : Bool
  interop : Bool
  dataAvailability : Bool
  deriving Repr, DecidableEq

/-- Runtime shape of `ChainConfig.consensus` (`src/types/chain.ts`).
`blockTime` and `validators` are JS numbers, modelled as rationals. -/
structure Consensus where
  algorithm : String
  blockTime : ℚ
  validators : ℚ
  deriving Repr, DecidableEq

/-- Runtime shape of `ChainConfig` (`src/types/chain.ts`). The enum-like
fields (`executionLayer`, `baseChain`, `sequencer`) are strings at runtime;
the zod schema is what constrains them to the allowed alternatives. -/
structure ChainConfig where
  name : String
  executionLayer : String
  baseChain : String
  sequencer : String
  tps : ℚ
  features : Features
  consensus : Consensus
  deriving Repr, DecidableEq

/-- Runtime shape of `DeploymentOptions` (`src/types/chain.ts`);
`environment` is a string at runtime, constrained by the zod schema. -/
structure DeploymentOptions where
  environment : String
  autoScale : Bool
  monitoring : Bool
  deriving Repr, DecidableEq

/-- Runtime shape of `ChainStatus` (`src/types/chain.ts`). The `status`
field is a string at runtime; the type annotation in the source restricts
it to the union `'active' | 'inactive' | 'deploying' | 'error'`. -/
structure ChainStatus where
  status : String
  blockHeight : ℚ
  tps : ℚ
  latency : ℚ
  uptime : ℚ
  deriving Repr, DecidableEq

/-- `chainConfigSchema.parse` succeeds (`src/core/validator.ts`, lines 4-20):
name length in [1,50], the three enums among their listed alternatives,
`tps` in [1000, 100000], the feature flags booleans (enforced by typing
here), `consensus.algorithm` any string, `consensus.blockTime` in
[0.1, 60], `consensus.validators` in [1, 1000]. zod `min`/`max` are
inclusive bounds. -/
def chainConfigSchemaOk (c : ChainConfig) : Bool :=
  decide (1 ≤ c.name.length) && decide (c.name.length ≤ 50) &&
  (c.executionLayer == "ZK" || c.executionLayer == "Optimistic") &&
  (c.baseChain == "Ethereum" || c.baseChain == "Solana" || c.baseChain == "Binance") &&
  (c.sequencer == "Decentralized" || c.sequencer == "Centralized" || c.sequencer == "Hybrid") &&
  decide ((1000 : ℚ) ≤ c.tps) && decide (c.tps ≤ (100000 : ℚ)) &&
  decide (mkRat 1 10 ≤ c.consensus.blockTime) && decide (c.consensus.blockTime ≤ (60 : ℚ)) &&
  decide ((1 : ℚ) ≤ c.consensus.validators) && decide (c.consensus.validators ≤ (1000 : ℚ))

/-- `deploymentOptionsSchema.parse` succeeds (`src/core/validator.ts`,
lines 22-26): `environment` among {testnet, mainnet}; the two booleans are
enforced by typing here. -/
def deploymentOptionsSchemaOk (o : DeploymentOptions) : Bool :=
  o.environment == "testnet" || o.environment == "mainnet"

/-- `validateChainConfig` (`src/core/validator.ts`, lines 28-36): returns
`true` when the schema parse succeeds and `false` when it throws. -/
def validateChainConfig (config : ChainConfig) : Bool :=
  chainConfigSchemaOk config

/-- `validateDeploymentOptions` (`src/core/validator.ts`, lines 38-46). -/
def validateDeploymentOptions (options : DeploymentOptions) : Bool :=
  deploymentOptionsSchemaOk options

/-- State of a `Chain` object (`src/core/chain.ts`): the private fields
`config`, `deploymentOptions?` and `status`. -/
structure Chain where
  config : ChainConfig
  deploymentOptions : Option DeploymentOptions
  status : ChainStatus
  deriving Repr, DecidableEq

/-- The `Chain` constructor (`src/core/chain.ts`, lines 9-21): throws
`'Invalid chain configuration'` when validation fails, otherwise creates
the object with status initialised to `'inactive'` and all metrics 0. -/
def Chain.create (config : ChainConfig) : Except String Chain :=
  if !validateChainConfig config then
    .error "Invalid chain configuration"
  else
    .ok { config := config
          deploymentOptions := none
          status := { status := "inactive", blockHeight := 0, tps := 0, latency := 0, uptime := 0 } }

/-- `Chain.deploy` (`src/core/chain.ts`, lines 23-39). The deployment body
in the source is a mock that always succeeds; the `try`/`catch` structure
is in the source, so the success of the guarded body is passed in as
`deployOk`. Returns the thrown error (if any), the list of values
successively assigned to `status.status` during the call, and the state of
the object after the call. -/
def Chain.deploy (c : Chain) (options : DeploymentOptions) (deployOk : Bool) :
    Option String × List String × Chain :=
  if !validateDeploymentOptions options then
    (some "Invalid deployment options", [], c)
  else
    let c1 : Chain := { c with deploymentOptions := some options,
                               status := { c.status with status := "deploying" } }
    if deployOk then
      (none, ["deploying", "active"], { c1 with status := { c1.status with status := "active" } })
    else
      (some "deployment error", ["deploying", "error"],
        { c1 with status := { c1.status with status := "error" } })

/-- `Chain.getStatus` (`src/core/chain.ts`, lines 41-43). -/
def Chain.getStatus (c : Chain) : ChainStatus :=
  c.status

/-- `Chain.getConfig` (`src/core/chain.ts`, lines 45-47). -/
def Chain.getConfig (c : Chain) : ChainConfig :=
  c.config

/-- `Partial<ChainConfig>`: every top-level field optional (TypeScript's
`Partial` is shallow — `features` and `consensus` are replaced whole when
present). -/
structure PartialChainConfig where
  name : Option String := none
  executionLayer : Option String := none
  baseChain : Option String := none
  sequencer : Option String := none
  tps : Option ℚ := none
  features : Option Features := none
  consensus : Option Consensus := none
  deriving Repr, DecidableEq

/-- The object spread `{ ...this.config, ...newConfig }` in
`Chain.updateConfig` (`src/core/chain.ts`, line 50): fields present in the
update override, absent fields keep the stored value. -/
def mergeConfig (base : ChainConfig) (p : PartialChainConfig) : ChainConfig :=
  { name := p.name.getD base.name
    executionLayer := p.executionLayer.getD base.executionLayer
    baseChain := p.baseChain.getD base.baseChain
    sequencer := p.sequencer.getD base.sequencer
    tps := p.tps.getD base.tps
    features := p.features.getD base.features
    consensus := p.consensus.getD base.consensus }

/-- `Chain.updateConfig` (`src/core/chain.ts`, lines 49-55): merge, validate
the merge, throw `'Invalid configuration update'` leaving the stored config
untouched on failure, store the merged config on success. -/
def Chain.updateConfig (c : Chain) (newConfig : PartialChainConfig) :
    Option String × Chain :=
  let updatedConfig := mergeConfig c.config newConfig
  if !validateChainConfig updatedConfig then
    (some "Invalid configuration update", c)
  else
    (none, { c with config := updatedConfig })

/-- `Transaction` (`src/core/validator.ts`, lines 70-76, the sequencer
part of the file): `value` is a bigint, `nonce` a JS number. -/
structure Transaction where
  fromAddr : String
  toAddr : String
  data : String
  value : Int
  nonce : ℚ
  deriving Repr, DecidableEq

/-- State of a `Sequencer` object (`src/core/validator.ts`, lines 49-57):
the pending-transaction queue. -/
structure Sequencer where
  queue : List Transaction
  deriving Repr, DecidableEq

/-- `Sequencer.processBatch` (`src/core/validator.ts`, lines 64-67): the
mock implementation returns `'tx_hash_' + Date.now()` and touches nothing
else — in particular it never drains the queue and never cuts a batch.
`now` stands for `Date.now()`. -/
def Sequencer.processBatch (s : Sequencer) (now : ℚ) : String × Sequencer :=
  ("tx_hash_" ++ toString now, s)

/-- `Sequencer.submitTransaction` (`src/core/validator.ts`, lines 59-62):
pushes the transaction onto the queue unconditionally — no validation of
any kind — and returns `processBatch()`. -/
def Sequencer.submitTransaction (s : Sequencer) (tx : Transaction) (now : ℚ) :
    String × Sequencer :=
  let s1 : Sequencer := { s with queue := s.queue ++ [tx] }
  s1.processBatch now

/-- Submitting a list of transactions one after the other, in order. -/
def Sequencer.submitAll (s : Sequencer) (txs : List Transaction) (now : ℚ) : Sequencer :=
  txs.foldl (fun st tx => (st.submitTransaction tx now).2) s

/-- Modelled from the spec: the `Batch` record of §3 — batch id, ordered
transaction sequence, lifecycle status. The batching pipeline is absent
from `src/`; only the repository's technical documentation and the spec
describe it. -/
structure Batch where
  batchId : Nat
  transactions : List Transaction
  status : String
  deriving Repr, DecidableEq

/-- Modelled from the spec: cutting a batch (§4.1) atomically drains the
eligible queued transactions, in queue order, into a new `Batch` whose
status moves `forming → proving`; the drained transactions leave the
queue. Absent from `src/`. -/
def cutBatch (batchId : Nat) (queue : List Transaction) : Batch × List Transaction :=
  ({ batchId := batchId, transactions := queue, status := "proving" }, [])

/-- Modelled from the spec: settlement (§4.3) submits the batch's
transaction sequence to the base chain unchanged, preserving batch order.
Absent from `src/`. -/
def settledOrder (b : Batch) : List Transaction :=
  b.transactions

/-- Modelled from the spec: the `BridgeMessage` wire shape of §3/§6
(proof and the remaining metadata fields are irrelevant to identity and
omitted). The bridge is absent from `src/`. -/
structure BridgeMessage where
  sourceChain : String
  targetChain : String
  payload : List Nat
  nonce : Nat
  deriving Repr, DecidableEq

/-- Modelled from the spec: the deterministic message id
`hash(sourceChain, targetChain, payload, nonce)` of §3 — a function of
exactly those four fields, modelled as an injective encoding. Absent from
`src/`. -/
def messageId (m : BridgeMessage) : String :=
  m.sourceChain ++ "|" ++ m.targetChain ++ "|" ++ toString m.payload ++ "|" ++ toString m.nonce

/-- Modelled from the spec: the `QueuedMessage` record of §3. -/
structure QueuedMessage where
  message : BridgeMessage
  retryCount : Nat
  status : String
  deriving Repr, DecidableEq

/-- The fresh delivery obligation created for a newly queued message:
status `pending`, retryCount 0. -/
def pendingEntry (m : BridgeMessage) : QueuedMessage :=
  { message := m, retryCount := 0, status := "pending" }

/-- Modelled from the spec: `send(message) -> messageId` of §4.4 — the id
is the deterministic `messageId`; resubmitting a message whose id is
already queued creates no second delivery obligation (idempotence); a new
logical message is queued `pending` with retryCount 0 (`pendingEntry`).
Absent from `src/`. -/
def sendMessage (q : List QueuedMessage) (m : BridgeMessage) :
    String × List QueuedMessage :=
  let mid := messageId m
  if q.any (fun qm => messageId qm.message == mid) then
    (mid, q)
  else
    (mid, q ++ [pendingEntry m])

/-- Number of queued delivery obligations carrying a given message id. -/
def countWithId (q : List QueuedMessage) (mid : String) : Nat :=
  (q.filter (fun qm => messageId qm.message == mid)).length

/-- Modelled from the spec: a 2PC participant chain (§4.5) together with
the outcome of its prepare step — whether its lock acquisition and its
preparation-proof generation succeed. Absent from `src/`. -/
structure Participant where
  chain : String
  lockOk : Bool
  proofOk : Bool
  deriving Repr, DecidableEq

/-- Modelled from the spec: a cross-chain transaction's participant set
(§3). -/
structure CrossChainTx where
  participants : List Participant
  deriving Repr, DecidableEq

/-- Coordinator state: overall status, locks currently held, and the
participants that have committed. -/
structure CoordState where
  status : String
  heldLocks : List String
  committedChains : List String
  deriving Repr, DecidableEq

/-- Modelled from the spec: the prepare phase (§4.5) walks the participants
in order, acquiring each one's lock and requesting its preparation proof;
it stops at the first participant whose lock acquisition or proof
generation fails. Returns the locks acquired so far and whether every
participant prepared. -/
def acquirePrepare : List Participant → List String → List String × Bool
  | [], acquired => (acquired, true)
  | p :: ps, acquired =>
    if p.lockOk && p.proofOk then acquirePrepare ps (acquired ++ [p.chain])
    else (acquired, false)

/-- Release a list of acquired locks from the held set, one at a time. -/
def releaseLocks (held : List String) (acquired : List String) : List String :=
  held.diff acquired

/-- Modelled from the spec: `executeAtomicTransaction` (§4.5). Prepare all
participants; if any prepare fails, transition `preparing → aborting →
aborted`, release every lock already acquired, and commit nobody. If all
prepare, broadcast commit (`commitOk` models whether the broadcast
delivers to every participant); on success all participants commit and
locks are released; on broadcast failure the committed participants
receive a rollback attempt and the coordinator aborts. Returns the trace
of coordinator statuses and the final state. Absent from `src/`. -/
def executeAtomic (tx : CrossChainTx) (commitOk : Bool) :
    List String × CoordState :=
  let r := acquirePrepare tx.participants []
  let acquired := r.1
  if r.2 then
    if commitOk then
      (["preparing", "prepared", "committing", "committed"],
       { status := "committed", heldLocks := releaseLocks acquired acquired,
         committedChains := tx.participants.map (fun p => p.chain) })
    else
      (["preparing", "prepared", "committing", "aborting", "aborted"],
       { status := "aborted", heldLocks := releaseLocks acquired acquired,
         committedChains := [] })
  else
    (["preparing", "aborting", "aborted"],
     { status := "aborted", heldLocks := releaseLocks acquired acquired,
       committedChains := [] })

/-! ### Sample values (used by witnesses) -/

/-- The example configuration of `src/index.ts` / `examples/simple-l2.ts`. -/
def sampleConfig : ChainConfig :=
  { name := "SimpleL2"
    executionLayer := "ZK"
    baseChain := "Ethereum"
    sequencer := "Decentralized"
    tps := 50000
    features := { privacy := true, interop := true, dataAvailability := true }
    consensus := { algorithm := "PoS", blockTime := 2, validators := 100 } }

/-- `sampleConfig` with an out-of-range throughput bound. -/
def sampleBadConfig : ChainConfig :=
  { sampleConfig with tps := 0 }

/-- The object the `Chain` constructor builds from `sampleConfig`. -/
def sampleChain : Chain :=
  { config := sampleConfig
    deploymentOptions := none
    status := { status := "inactive", blockHeight := 0, tps := 0, latency := 0, uptime := 0 } }

/-- The example deployment options of `src/index.ts`. -/
def sampleOptions : DeploymentOptions :=
  { environment := "testnet", autoScale := true, monitoring := true }

/-- Deployment options with an environment outside {testnet, mainnet}. -/
def sampleBadOptions : DeploymentOptions :=
  { environment := "devnet", autoScale := true, monitoring := true }

/-- A concrete transaction. -/
def sampleTx : Transaction :=
  { fromAddr := "0xalice", toAddr := "0xbob", data := "0x", value := 0, nonce := 7 }

/-- A concrete bridge message. -/
def sampleMessage : BridgeMessage :=
  { sourceChain := "SimpleL2", targetChain := "Ethereum", payload := [1, 2, 3], nonce := 5 }

/-! ### Helper lemmas -/

lemma list_diff_self (l : List String) : l.diff l = [] := by
  induction l with
  | nil => rfl
  | cons a l ih =>
      have h : (a :: l).erase a = l := List.erase_cons_head a l
      simp [List.diff_cons, h, ih]

lemma releaseLocks_all (acquired : List String) :
    releaseLocks acquired acquired = [] :=
  list_diff_self acquired

lemma submitAll_queue (txs : List Transaction) (s : Sequencer) (now : ℚ) :
    (Sequencer.submitAll s txs now).queue = s.queue ++ txs := by
  induction txs generalizing s with
  | nil => simp [Sequencer.submitAll]
  | cons tx txs ih =>
      simp [Sequencer.submitAll, Sequencer.submitTransaction, Sequencer.processBatch] at ih ⊢
      rw [ih]
      simp

lemma acquirePrepare_false_iff (ps : List Participant) (acc : List String) :
    (acquirePrepare ps acc).2 = false ↔
      ∃ p ∈ ps, ¬(p.lockOk = true ∧ p.proofOk = true) := by
  induction ps generalizing acc with
  | nil => simp [acquirePrepare]
  | cons p ps ih =>
      cases hl : p.lockOk <;> cases hr : p.proofOk <;>
        simp [acquirePrepare, hl, hr, ih]

/-- The spec's acceptance condition for a chain configuration, stated from
the spec's words (§6 and the schema bounds named by the claim): all fields
present, name length 1-50, enums among their listed alternatives, tps in
[1000, 100000], blockTime in [0.1, 60], validators in [1, 1000]. Kept
separate from `chainConfigSchemaOk` so the two can be compared. -/
def specChainConfigAccepted (c : ChainConfig) : Prop :=
  (1 ≤ c.name.length ∧ c.name.length ≤ 50) ∧
  (c.executionLayer = "ZK" ∨ c.executionLayer = "Optimistic") ∧
  (c.baseChain = "Ethereum" ∨ c.baseChain = "Solana" ∨ c.baseChain = "Binance") ∧
  (c.sequencer = "Decentralized" ∨ c.sequencer = "Centralized" ∨ c.sequencer = "Hybrid") ∧
  ((1000 : ℚ) ≤ c.tps ∧ c.tps ≤ 100000) ∧
  (mkRat 1 10 ≤ c.consensus.blockTime ∧ c.consensus.blockTime ≤ 60) ∧
  ((1 : ℚ) ≤ c.consensus.validators ∧ c.consensus.validators ≤ 1000)

/-! ### Claim theorems -/

/-- C1: contrary to the claim, `Sequencer.submitTransaction` performs no
validation at all. A transaction whose nonce (7) is not the expected next
value for its sender — the sequencer has seen no transaction from anyone —
is appended to the queue, and the call returns a transaction hash instead
of failing with `InvalidTransaction`. -/
theorem submitTransaction_admits_out_of_sequence_nonce :
    (Sequencer.submitTransaction { queue := [] } sampleTx 1700000000000).2.queue
        = [sampleTx] ∧
    (Sequencer.submitTransaction { queue := [] } sampleTx 1700000000000).1
        = "tx_hash_1700000000000" := by
  exact ⟨rfl, rfl⟩

/-- C2: contrary to the claim, the mock `Sequencer.processBatch` never cuts
a batch: it leaves the queue untouched in every state — in particular when
the queue has reached any batch size — and `submitTransaction` only ever
grows the queue; no size trigger, latency trigger, or drain exists in the
code. -/
theorem processBatch_never_cuts_batch :
    (∀ (s : Sequencer) (now : ℚ), ((s.processBatch now).2).queue = s.queue) ∧
    (∀ (s : Sequencer) (tx : Transaction) (now : ℚ),
        ((s.submitTransaction tx now).2).queue = s.queue ++ [tx]) := by
  exact ⟨fun s now => rfl, fun s tx now => rfl⟩

/-- C3: every admitted transaction is appended at the tail of the queue, so
a sequence of submissions lands in the queue in exact arrival order with no
reordering (source `submitTransaction`); with the batch cut and settlement
modelled from the spec, batch contents preserve this arrival order
end-to-end (queue → batch → settlement). -/
theorem fifo_order_preserved :
    ∀ (s : Sequencer) (txs : List Transaction) (now : ℚ) (bid : Nat),
      (Sequencer.submitAll s txs now).queue = s.queue ++ txs ∧
      (cutBatch bid (Sequencer.submitAll { queue := [] } txs now).queue).1.transactions
          = txs ∧
      settledOrder (cutBatch bid (Sequencer.submitAll { queue := [] } txs now).queue).1
          = txs := by
  intro s txs now bid
  refine ⟨submitAll_queue txs s now, ?_, ?_⟩ <;>
    simp [settledOrder, cutBatch, submitAll_queue]

/-- C4: the `Chain` constructor throws `'Invalid chain configuration'`
whenever validation fails — before any state is created — and every
successfully constructed `Chain` object carries a configuration that passed
validation, with its initial status state. -/
theorem chain_create_validates (cfg : ChainConfig) :
    (validateChainConfig cfg = false →
        Chain.create cfg = Except.error "Invalid chain configuration") ∧
    (∀ ch : Chain, Chain.create cfg = Except.ok ch →
        validateChainConfig cfg = true ∧ ch.config = cfg ∧
        ch.deploymentOptions = none ∧ ch.status.status = "inactive") := by
  constructor
  · intro h
    simp [Chain.create, h]
  · intro ch h
    cases hv : validateChainConfig cfg with
    | false => simp [Chain.create, hv] at h
    | true =>
        simp [Chain.create, hv] at h
        exact ⟨rfl, by simp [← h], by simp [← h], by simp [← h]⟩

/-- Witness for C4 at the example configuration of `src/index.ts` and at
that configuration with tps 0. -/
theorem chain_create_validates_witness :
    Chain.create sampleBadConfig = Except.error "Invalid chain configuration" ∧
    (validateChainConfig sampleConfig = true ∧ sampleChain.config = sampleConfig ∧
      sampleChain.deploymentOptions = none ∧ sampleChain.status.status = "inactive") :=
  ⟨(chain_create_validates sampleBadConfig).1 (by decide),
   (chain_create_validates sampleConfig).2 sampleChain rfl⟩

/-- C5: `validateChainConfig` accepts a configuration exactly when every
field listed by the spec is within its schema bounds: name length 1-50,
execution layer, base chain and sequencer mode among their listed
alternatives, tps in [1000, 100000], blockTime in [0.1, 60], validators in
[1, 1000] (the feature flags and the consensus algorithm string are
unconstrained beyond their types, as in the schema). -/
theorem validateChainConfig_iff_spec (c : ChainConfig) :
    validateChainConfig c = true ↔ specChainConfigAccepted c := by
  simp only [validateChainConfig, chainConfigSchemaOk, specChainConfigAccepted,
    Bool.and_eq_true, Bool.or_eq_true, decide_eq_true_eq, beq_iff_eq]
  tauto

/-- The four values the `status` field of a status snapshot may take
(`src/types/chain.ts`, line 30). -/
def statusValues : List String := ["inactive", "deploying", "active", "error"]

/-- Chains reachable through the public operations of `Chain`: construction,
`deploy` (with either outcome of the mocked deployment body), and
`updateConfig`. `getStatus`/`getConfig` read without mutating. -/
inductive ChainReachable : Chain → Prop where
  | created (cfg : ChainConfig) (ch : Chain) :
      Chain.create cfg = Except.ok ch → ChainReachable ch
  | deployed (ch : Chain) (opts : DeploymentOptions) (dOk : Bool) :
      ChainReachable ch → ChainReachable ((ch.deploy opts dOk).2.2)
  | updated (ch : Chain) (p : PartialChainConfig) :
      ChainReachable ch → ChainReachable ((ch.updateConfig p).2)

lemma create_status_inactive (cfg : ChainConfig) (ch : Chain)
    (h : Chain.create cfg = Except.ok ch) : ch.status.status = "inactive" := by
  cases hv : validateChainConfig cfg with
  | false => simp [Chain.create, hv] at h
  | true =>
      simp [Chain.create, hv] at h
      simp [← h]

lemma updateConfig_status (ch : Chain) (p : PartialChainConfig) :
    ((ch.updateConfig p).2).status = ch.status := by
  cases hv : validateChainConfig (mergeConfig ch.config p) <;>
    simp [Chain.updateConfig, hv]

lemma deploy_status (ch : Chain) (opts : DeploymentOptions) (dOk : Bool) :
    ((ch.deploy opts dOk).2.2).status.status
      = (if validateDeploymentOptions opts = true then
           (if dOk then "active" else "error")
         else ch.status.status) := by
  cases hv : validateDeploymentOptions opts <;> cases dOk <;>
    simp [Chain.deploy, hv]

/-- C6: every chain reachable through the operations of `Chain` shows a
`getStatus` snapshot whose status field is among
{inactive, deploying, active, error}; the constructor initialises it to
`'inactive'`; `updateConfig` (and the read-only operations) never change
it; and `deploy` is the operation that moves it — through `'deploying'`,
then `'active'` on success or `'error'` on failure of the deployment body,
and not at all when the options are rejected. -/
theorem chain_status_machine :
    (∀ ch : Chain, ChainReachable ch → ch.getStatus.status ∈ statusValues) ∧
    (∀ (cfg : ChainConfig) (ch : Chain), Chain.create cfg = Except.ok ch →
        ch.getStatus.status = "inactive") ∧
    (∀ (ch : Chain) (p : PartialChainConfig),
        ((ch.updateConfig p).2).getStatus.status = ch.getStatus.status) ∧
    (∀ (ch : Chain) (opts : DeploymentOptions) (dOk : Bool),
        validateDeploymentOptions opts = true →
          (ch.deploy opts dOk).2.1 = ["deploying", if dOk then "active" else "error"] ∧
          ((ch.deploy opts dOk).2.2).getStatus.status
            = (if dOk then "active" else "error")) ∧
    (∀ (ch : Chain) (opts : DeploymentOptions) (dOk : Bool),
        validateDeploymentOptions opts = false →
          ((ch.deploy opts dOk).2.2).getStatus.status = ch.getStatus.status) := by
  refine ⟨?_, ?_, ?_, ?_, ?_⟩
  · intro ch h
    induction h with
    | created cfg ch hc =>
        simp [Chain.getStatus, create_status_inactive cfg ch hc, statusValues]
    | deployed ch opts dOk _ ih =>
        simp only [Chain.getStatus, deploy_status] at ih ⊢
        cases hv : validateDeploymentOptions opts <;> cases dOk <;>
          simp [hv, statusValues] at ih ⊢ <;> exact ih
    | updated ch p _ ih =>
        simpa [Chain.getStatus, updateConfig_status] using ih
  · intro cfg ch hc
    exact create_status_inactive cfg ch hc
  · intro ch p
    simp [Chain.getStatus, updateConfig_status]
  · intro ch opts dOk hv
    cases dOk <;> simp [Chain.deploy, Chain.getStatus, hv]
  · intro ch opts dOk hv
    simp [Chain.getStatus, deploy_status, hv]

/-- Witness for C6: the chain built from the example configuration is
reachable and shows an allowed status; deploying it with the example
options traverses `'deploying'` then `'active'`. -/
theorem chain_status_machine_witness :
    sampleChain.getStatus.status ∈ statusValues ∧
    (Chain.deploy sampleChain sampleOptions true).2.1 = ["deploying", "active"] := by
  refine ⟨chain_status_machine.1 sampleChain
      (ChainReachable.created sampleConfig sampleChain rfl), ?_⟩
  have h := (chain_status_machine.2.2.2.1 sampleChain sampleOptions true (by decide)).1
  simpa using h

/-- C7: `send` is deterministic and idempotent — both calls with the same
logical message return `messageId m` (the hash of sourceChain, targetChain,
payload and nonce), and when the message was not queued before, the two
calls together create exactly one delivery obligation with that id. -/
theorem sendMessage_idempotent (q : List QueuedMessage) (m : BridgeMessage)
    (h : countWithId q (messageId m) = 0) :
    (sendMessage q m).1 = messageId m ∧
    (sendMessage (sendMessage q m).2 m).1 = messageId m ∧
    countWithId (sendMessage (sendMessage q m).2 m).2 (messageId m) = 1 := by
  have hfil : q.filter (fun qm => messageId qm.message == messageId m) = [] :=
    List.length_eq_zero.mp h
  have hany : q.any (fun qm => messageId qm.message == messageId m) = false := by
    rw [Bool.eq_false_iff]
    intro hc
    rcases List.any_eq_true.mp hc with ⟨x, hx, hpx⟩
    have := List.filter_eq_nil_iff.mp hfil x hx
    exact this hpx
  have step1 : sendMessage q m = (messageId m, q ++ [pendingEntry m]) := by
    simp [sendMessage, hany]
  have hany2 : (q ++ [pendingEntry m]).any
      (fun qm => messageId qm.message == messageId m) = true := by
    simp [pendingEntry]
  refine ⟨by simp [step1], ?_, ?_⟩
  · rw [step1]
    simp [sendMessage, hany2]
  · rw [step1]
    simp only [sendMessage, hany2, if_true]
    simp [countWithId, List.filter_append, hfil, pendingEntry]

/-- Witness for C7 at the empty queue and a concrete bridge message. -/
theorem sendMessage_idempotent_witness :
    countWithId [] (messageId sampleMessage) = 0 ∧
    ((sendMessage [] sampleMessage).1 = messageId sampleMessage ∧
     (sendMessage (sendMessage [] sampleMessage).2 sampleMessage).1
        = messageId sampleMessage ∧
     countWithId (sendMessage (sendMessage [] sampleMessage).2 sampleMessage).2
        (messageId sampleMessage) = 1) :=
  ⟨rfl, sendMessage_idempotent [] sampleMessage rfl⟩

/-- A concrete cross-chain transaction whose second participant's lock
acquisition fails. -/
def sampleAtomicTx : CrossChainTx :=
  { participants :=
      [{ chain := "chainA", lockOk := true, proofOk := true },
       { chain := "chainB", lockOk := false, proofOk := true }] }

/-- C8: if any participant's prepare (lock acquisition or proof
generation) fails, the coordinator traverses `preparing → aborting →
aborted`: the status trace never contains `committed`, no participant ends
committed, and every lock acquired during the prepare walk is released —
no partial prepares are left outstanding. -/
theorem coordinator_abort_on_prepare_failure (tx : CrossChainTx) (commitOk : Bool)
    (h : ∃ p ∈ tx.participants, ¬(p.lockOk = true ∧ p.proofOk = true)) :
    (executeAtomic tx commitOk).1 = ["preparing", "aborting", "aborted"] ∧
    "committed" ∉ (executeAtomic tx commitOk).1 ∧
    "aborting" ∈ (executeAtomic tx commitOk).1 ∧
    (executeAtomic tx commitOk).2.status = "aborted" ∧
    (executeAtomic tx commitOk).2.committedChains = [] ∧
    (executeAtomic tx commitOk).2.heldLocks = [] := by
  have hprep : (acquirePrepare tx.participants []).2 = false :=
    (acquirePrepare_false_iff tx.participants []).mpr h
  simp [executeAtomic, hprep, releaseLocks_all]

/-- Witness for C8 at a concrete two-participant transaction whose second
participant fails to prepare. -/
theorem coordinator_abort_on_prepare_failure_witness :
    (∃ p ∈ sampleAtomicTx.participants, ¬(p.lockOk = true ∧ p.proofOk = true)) ∧
    ((executeAtomic sampleAtomicTx true).1 = ["preparing", "aborting", "aborted"] ∧
     "committed" ∉ (executeAtomic sampleAtomicTx true).1 ∧
     "aborting" ∈ (executeAtomic sampleAtomicTx true).1 ∧
     (executeAtomic sampleAtomicTx true).2.status = "aborted" ∧
     (executeAtomic sampleAtomicTx true).2.committedChains = [] ∧
     (executeAtomic sampleAtomicTx true).2.heldLocks = []) :=
  ⟨by decide, coordinator_abort_on_prepare_failure sampleAtomicTx true (by decide)⟩

/-- A partial update that renames the chain only. -/
def samplePartialGood : PartialChainConfig :=
  { name := some "RenamedL2" }

/-- A partial update whose merge is rejected (throughput out of range). -/
def samplePartialBad : PartialChainConfig :=
  { tps := some 0 }

/-- C9: `updateConfig` merges the stored configuration with the partial
update and validates the merge. On validation failure it throws
`'Invalid configuration update'` and the stored configuration — as read
back through `getConfig` — is exactly what it was. On success no error is
thrown, the merge is stored, and every field the update does not mention
keeps its previous value. -/
theorem updateConfig_merge_or_unchanged (ch : Chain) (p : PartialChainConfig) :
    (validateChainConfig (mergeConfig ch.config p) = false →
        (ch.updateConfig p).1 = some "Invalid configuration update" ∧
        ((ch.updateConfig p).2).getConfig = ch.getConfig) ∧
    (validateChainConfig (mergeConfig ch.config p) = true →
        (ch.updateConfig p).1 = none ∧
        ((ch.updateConfig p).2).getConfig = mergeConfig ch.config p ∧
        (p.name = none →
          ((ch.updateConfig p).2).getConfig.name = ch.getConfig.name) ∧
        (p.executionLayer = none →
          ((ch.updateConfig p).2).getConfig.executionLayer = ch.getConfig.executionLayer) ∧
        (p.baseChain = none →
          ((ch.updateConfig p).2).getConfig.baseChain = ch.getConfig.baseChain) ∧
        (p.sequencer = none →
          ((ch.updateConfig p).2).getConfig.sequencer = ch.getConfig.sequencer) ∧
        (p.tps = none →
          ((ch.updateConfig p).2).getConfig.tps = ch.getConfig.tps) ∧
        (p.features = none →
          ((ch.updateConfig p).2).getConfig.features = ch.getConfig.features) ∧
        (p.consensus = none →
          ((ch.updateConfig p).2).getConfig.consensus = ch.getConfig.consensus)) := by
  constructor
  · intro h
    simp [Chain.updateConfig, h, Chain.getConfig]
  · intro h
    refine ⟨?_, ?_, ?_, ?_, ?_, ?_, ?_, ?_, ?_⟩ <;>
      first
        | (intro hf
           simp only [Chain.updateConfig, h, Bool.not_true, Bool.false_eq_true,
             if_false, Chain.getConfig]
           simp [mergeConfig, hf])
        | simp [Chain.updateConfig, h, Chain.getConfig]

/-- Witness for C9 at the example chain, with one rejected update (tps 0)
and one accepted rename. -/
theorem updateConfig_merge_or_unchanged_witness :
    (validateChainConfig (mergeConfig sampleChain.config samplePartialBad) = false ∧
      (sampleChain.updateConfig samplePartialBad).1 = some "Invalid configuration update" ∧
      ((sampleChain.updateConfig samplePartialBad).2).getConfig = sampleChain.getConfig) ∧
    (validateChainConfig (mergeConfig sampleChain.config samplePartialGood) = true ∧
      (sampleChain.updateConfig samplePartialGood).1 = none ∧
      (samplePartialGood.tps = none →
        ((sampleChain.updateConfig samplePartialGood).2).getConfig.tps
          = sampleChain.getConfig.tps)) := by
  have hbad := (updateConfig_merge_or_unchanged sampleChain samplePartialBad).1 (by decide)
  have hgood := (updateConfig_merge_or_unchanged sampleChain samplePartialGood).2 (by decide)
  exact ⟨⟨by decide, hbad.1, hbad.2⟩,
         ⟨by decide, hgood.1, hgood.2.2.2.2.2.2.1⟩⟩

/-- C10: `deploy` validates its options before touching any state: when
validation fails it throws `'Invalid deployment options'`, assigns no
status value, and leaves the chain object — status and stored deployment
options included — exactly as it was. -/
theorem deploy_rejects_invalid_options (ch : Chain) (opts : DeploymentOptions)
    (dOk : Bool) (h : validateDeploymentOptions opts = false) :
    (ch.deploy opts dOk).1 = some "Invalid deployment options" ∧
    (ch.deploy opts dOk).2.1 = [] ∧
    (ch.deploy opts dOk).2.2 = ch := by
  refine ⟨?_, ?_, ?_⟩ <;> simp [Chain.deploy, h]

/-- Witness for C10 at the example chain and options naming an unknown
environment. -/
theorem deploy_rejects_invalid_options_witness :
    validateDeploymentOptions sampleBadOptions = false ∧
    ((sampleChain.deploy sampleBadOptions true).1 = some "Invalid deployment options" ∧
     (sampleChain.deploy sampleBadOptions true).2.1 = [] ∧
     (sampleChain.deploy sampleBadOptions true).2.2 = sampleChain) :=
  ⟨by decide, deploy_rejects_invalid_options sampleChain sampleBadOptions true (by decide)⟩

end Infrastrukt
